import Mathlib

/-!
Verification of the Instax-camera wall application.

Shallow embedding of the three source components:
* `App.tsx` — the Wall Controller: photo collection, stacking counter, and
  the handlers `handleTakePhoto`, `handleDelete`, `handleDownload`,
  `handleBringToFront`.
* `components/Camera.tsx` — the Capture Source: webcam setup with its
  failure state, and the center-crop still-capture computation.
* `components/Polaroid.tsx` — the Card: the developing/developed visual
  state machine.

Nondeterministic browser inputs (`crypto.randomUUID()`, `Date.now()`,
`Math.random()`, the camera rectangle, the webcam frame) are passed as
explicit parameters.  Pixel coordinates are rationals, since the source
computes with JavaScript number division on small exact values.
-/

/-- A DOM rectangle as reported by `getBoundingClientRect()`. -/
structure DOMRect where
  left : ℚ
  top : ℚ
  width : ℚ
  height : ℚ
  deriving DecidableEq

/-- The `PhotoData` record from `types.ts`: one card on the wall. -/
structure PhotoData where
  id : String
  url : String
  timestamp : ℤ
  x : ℚ
  y : ℚ
  rotation : ℚ
  isDeveloping : Bool
  deriving DecidableEq

/-- The Wall Controller state held by `App`: the `photos` list and the
`topZIndex` counter (initialised to 10). -/
structure AppState where
  photos : List PhotoData
  topZIndex : ℕ
  deriving DecidableEq

/-- `useState` initial values in `App`: empty photo list, counter 10. -/
def initialAppState : AppState := { photos := [], topZIndex := 10 }

/-- `handleTakePhoto` from `App.tsx`: builds the new `PhotoData` record from
the data URL and the camera rectangle and appends it to the collection.
`newId`, `now` and `rand` stand for `crypto.randomUUID()`, `Date.now()` and
`Math.random()` respectively. -/
def handleTakePhoto (s : AppState) (newId : String) (now : ℤ) (rand : ℚ)
    (dataUrl : String) (cameraRect : DOMRect) : AppState :=
  let newPhoto : PhotoData :=
    { id := newId
      url := dataUrl
      timestamp := now
      x := cameraRect.left + cameraRect.width / 2 - 100
      y := cameraRect.top - 300
      rotation := rand * 6 - 3
      isDeveloping := true }
  { s with photos := s.photos ++ [newPhoto] }

/-- `handleDelete` from `App.tsx`: keeps exactly the photos whose id differs
from the argument. -/
def handleDelete (s : AppState) (id : String) : AppState :=
  { s with photos := s.photos.filter (fun p => p.id != id) }

/-- The observable effect of the transient `<a>` element built by
`handleDownload`: its `download` filename and its `href`. -/
structure DownloadLink where
  filename : String
  href : String
  deriving DecidableEq

/-- `handleDownload` from `App.tsx`: returns the unchanged wall state
together with the download it triggers.  `id.slice(0, 8)` is `String.take 8`
and the template literal builds `instax-<prefix>.jpg`. -/
def handleDownload (s : AppState) (id url : String) : AppState × DownloadLink :=
  (s, { filename := "instax-" ++ id.take 8 ++ ".jpg", href := url })

/-- `handleBringToFront` from `App.tsx`: increments `topZIndex`.  The `id`
argument is received but not used by the source body. -/
def handleBringToFront (s : AppState) (_id : String) : AppState :=
  { s with topZIndex := s.topZIndex + 1 }

/-- The stacking layers `App` actually renders: each `Polaroid` receives
`zIndex = index + 10` from the `photos.map((photo, index) => ...)` loop. -/
def renderZIndices (s : AppState) : List (String × ℕ) :=
  s.photos.enum.map (fun ip => (ip.2.id, ip.1 + 10))

/-- The counter values observed after each successive `handleBringToFront`
call of a sequence. -/
def bringToFrontTrace : AppState → List String → List ℕ
  | _, [] => []
  | s, id :: rest =>
    let s2 := handleBringToFront s id
    s2.topZIndex :: bringToFrontTrace s2 rest

/-! ### Capture Source (`Camera.tsx`) -/

/-- The source-crop rectangle picked by `handleCapture` for `drawImage`. -/
structure CropRegion where
  sourceX : ℚ
  sourceY : ℚ
  sourceWidth : ℚ
  sourceHeight : ℚ
  deriving DecidableEq

/-- The center-crop computation of `handleCapture` in `Camera.tsx`
(lines 63–79), on the live video dimensions. -/
def computeCrop (videoWidth videoHeight : ℚ) : CropRegion :=
  let videoRatio := videoWidth / videoHeight
  let targetRatio := (460 : ℚ) / 620
  if videoRatio > targetRatio then
    let sourceHeight := videoHeight
    let sourceWidth := sourceHeight * targetRatio
    { sourceX := (videoWidth - sourceWidth) / 2
      sourceY := 0
      sourceWidth := sourceWidth
      sourceHeight := sourceHeight }
  else
    let sourceWidth := videoWidth
    let sourceHeight := sourceWidth / targetRatio
    { sourceX := 0
      sourceY := (videoHeight - sourceHeight) / 2
      sourceWidth := sourceWidth
      sourceHeight := sourceHeight }

/-- The raster produced by one `handleCapture` call: the canvas dimensions
set before drawing, the destination rectangle of `drawImage`
(`0, 0, width, height`), the source crop, and the horizontal mirror applied
by `translate(width, 0); scale(-1, 1)`. -/
structure CaptureResult where
  canvasWidth : ℕ
  canvasHeight : ℕ
  destX : ℕ
  destY : ℕ
  destWidth : ℕ
  destHeight : ℕ
  crop : CropRegion
  mirrored : Bool
  deriving DecidableEq

/-- `handleCapture` from `Camera.tsx`: fixes `width = 460`, `height = 620`,
sizes the canvas to them, mirrors horizontally, and draws the centered crop
of the video frame into the full canvas. -/
def handleCapture (videoWidth videoHeight : ℚ) : CaptureResult :=
  let width : ℕ := 460
  let height : ℕ := 620
  { canvasWidth := width
    canvasHeight := height
    destX := 0
    destY := 0
    destWidth := width
    destHeight := height
    crop := computeCrop videoWidth videoHeight
    mirrored := true }

/-- `Camera` component state relevant to stream setup: the `isStreaming`
and `permissionError` `useState` flags. -/
structure CameraState where
  isStreaming : Bool
  permissionError : Bool
  deriving DecidableEq

/-- `useState(false)` twice in `Camera.tsx`. -/
def initialCameraState : CameraState := { isStreaming := false, permissionError := false }

/-- `setupCamera` from `Camera.tsx`: the `try` block sets `isStreaming` on
a successful `getUserMedia`; the `catch` block logs and sets
`permissionError`.  The function is total: a failed acquisition is caught
and returns a normal state instead of propagating. -/
def setupCamera (result : Except String Unit) (s : CameraState) : CameraState :=
  match result with
  | Except.ok _ => { s with isStreaming := true }
  | Except.error _ => { s with permissionError := true }

/-- What the lens area of `Camera` renders. -/
inductive LensRender where
  | placeholder
  | videoFeed
  deriving DecidableEq

/-- The conditional render in `Camera.tsx`: `permissionError ?` the
"Camera OFF" placeholder `:` the `<video>` feed. -/
def renderLens (s : CameraState) : LensRender :=
  if s.permissionError then LensRender.placeholder else LensRender.videoFeed

/-- Folding a sequence of stream-acquisition outcomes through the camera
state.  The source runs `setupCamera` once (mount effect with empty
dependency list); quantifying over sequences shows the error state would
persist even under repeated setups. -/
def cameraRun (s : CameraState) (rs : List (Except String Unit)) : CameraState :=
  rs.foldl (fun t r => setupCamera r t) s

/-! ### Card (`Polaroid.tsx`) -/

/-- `Polaroid` development state: the `developed` `useState` flag and
whether the 100ms `setTimeout` from the mount effect is pending. -/
structure CardDevState where
  developed : Bool
  timerPending : Bool
  deriving DecidableEq

/-- `useState(false)`: a card starts with `developed = false` and no timer
armed. -/
def initialCardDevState : CardDevState := { developed := false, timerPending := false }

/-- The fixed development delay of `Polaroid.tsx`: `setTimeout(…, 100)`. -/
def developDelayMs : ℕ := 100

/-- Events driving the card development state: the mount effect running
(with the card's `isDeveloping` flag) and the armed timer firing. -/
inductive CardEvent where
  | mount (isDeveloping : Bool)
  | timer
  deriving DecidableEq

/-- The `useEffect` body of `Polaroid.tsx`: with `isDeveloping` it arms the
timer whose callback is `setDeveloped(true)`; otherwise it calls
`setDeveloped(true)` immediately.  `timer` fires an armed timer. -/
def cardStep (s : CardDevState) : CardEvent → CardDevState
  | CardEvent.mount d =>
    if d then { s with timerPending := true }
    else { developed := true, timerPending := false }
  | CardEvent.timer =>
    if s.timerPending then { developed := true, timerPending := false } else s

/-- A card's development state after a sequence of events. -/
def cardRun (s : CardDevState) (es : List CardEvent) : CardDevState :=
  es.foldl cardStep s

/-! ### Concrete fixtures -/

/-- A concrete already-developed card. -/
def photoA : PhotoData :=
  { id := "aaaa", url := "u", timestamp := 0, x := 0, y := 0, rotation := 0,
    isDeveloping := false }

/-- A second concrete card. -/
def photoB : PhotoData :=
  { id := "bbbb", url := "v", timestamp := 0, x := 0, y := 0, rotation := 0,
    isDeveloping := false }

/-- A wall holding `photoA` then `photoB`, counter at its initial value. -/
def wallTwo : AppState := { photos := [photoA, photoB], topZIndex := 10 }

/-! ### Helper lemmas -/

/-- Taking then dropping the same number of characters recovers the string:
`id.take 8` really is the leading 8-character prefix. -/
lemma string_take_append_drop (s : String) (n : ℕ) : s.take n ++ s.drop n = s := by
  apply String.ext
  simp [List.take_append_drop]

/-- The counter trace of successive `handleBringToFront` calls, in closed
form. -/
lemma bringToFrontTrace_eq (ids : List String) :
    ∀ s : AppState, bringToFrontTrace s ids =
      (List.range ids.length).map (fun k => s.topZIndex + 1 + k) := by
  induction ids with
  | nil => intro _; rfl
  | cons a rest ih =>
    intro s
    have hfun : (fun k : ℕ => s.topZIndex + 1 + 1 + k)
        = (fun k : ℕ => s.topZIndex + 1 + (k + 1)) := by
      funext k; omega
    calc bringToFrontTrace s (a :: rest)
        = (s.topZIndex + 1) :: bringToFrontTrace (handleBringToFront s a) rest := rfl
      _ = (s.topZIndex + 1) ::
            (List.range rest.length).map (fun k => s.topZIndex + 1 + 1 + k) := by
          rw [ih]
          rfl
      _ = (s.topZIndex + 1) ::
            (List.range rest.length).map (fun k => s.topZIndex + 1 + (k + 1)) := by
          rw [hfun]
      _ = (List.range (a :: rest).length).map (fun k => s.topZIndex + 1 + k) := by
          rw [List.length_cons, List.range_succ_eq_map, List.map_cons, List.map_map]
          rfl

/-- One `Polaroid` effect or timer step never clears `developed`. -/
lemma cardStep_developed_mono (s : CardDevState) (e : CardEvent)
    (h : s.developed = true) : (cardStep s e).developed = true := by
  cases e with
  | mount d =>
    cases d
    · simp [cardStep]
    · simp [cardStep, h]
  | timer =>
    simp only [cardStep]
    split
    · rfl
    · exact h

/-- `developed` is monotone along any event sequence. -/
lemma cardRun_developed_mono (es : List CardEvent) :
    ∀ s : CardDevState, s.developed = true → (cardRun s es).developed = true := by
  induction es with
  | nil => intro _ h; exact h
  | cons e rest ih =>
    intro s h
    exact ih (cardStep s e) (cardStep_developed_mono s e h)

/-- No stream-setup outcome clears `permissionError`. -/
lemma setupCamera_error_mono (r : Except String Unit) (t : CameraState)
    (h : t.permissionError = true) : (setupCamera r t).permissionError = true := by
  cases r with
  | ok _ => exact h
  | error _ => rfl

/-- `permissionError` is persistent along any sequence of setup outcomes. -/
lemma cameraRun_error_mono (rs : List (Except String Unit)) :
    ∀ s : CameraState, s.permissionError = true →
      (cameraRun s rs).permissionError = true := by
  induction rs with
  | nil => intro _ h; exact h
  | cons r rest ih =>
    intro s h
    exact ih (setupCamera r s) (setupCamera_error_mono r s h)

/-- An erroring camera always renders the placeholder. -/
lemma renderLens_of_error (t : CameraState) (h : t.permissionError = true) :
    renderLens t = LensRender.placeholder := by
  simp [renderLens, h]

/-! ### Claims -/

/-- Claim C1, evaluated on the code at a concrete failing input: on the
two-card wall `wallTwo`, `handleBringToFront "aaaa"` increments the global
counter to 11, but the rendered stacking layers are computed as
`index + 10` and are completely unchanged — the clicked card `"aaaa"` keeps
layer 10 below `"bbbb"` at 11, so the new counter value does not become the
card's stacking layer and the card is not at the maximum. -/
theorem bringToFront_counter_unused :
    (handleBringToFront wallTwo "aaaa").topZIndex = wallTwo.topZIndex + 1 ∧
    renderZIndices (handleBringToFront wallTwo "aaaa") = renderZIndices wallTwo ∧
    renderZIndices (handleBringToFront wallTwo "aaaa") =
      [("aaaa", 10), ("bbbb", 11)] := by
  refine ⟨rfl, rfl, ?_⟩
  decide

/-- Claim C2: for every input stream with positive dimensions, the still
produced by `handleCapture` is rastered on a 460-by-620 canvas, drawn over
the full destination rectangle `(0, 0, 460, 620)` and mirrored, regardless
of the input aspect ratio. -/
theorem capture_fixed_dimensions (w h : ℚ) (hw : 0 < w) (hh : 0 < h) :
    (handleCapture w h).canvasWidth = 460 ∧
    (handleCapture w h).canvasHeight = 620 ∧
    (handleCapture w h).destX = 0 ∧
    (handleCapture w h).destY = 0 ∧
    (handleCapture w h).destWidth = 460 ∧
    (handleCapture w h).destHeight = 620 ∧
    (handleCapture w h).mirrored = true :=
  ⟨rfl, rfl, rfl, rfl, rfl, rfl, rfl⟩

/-- Witness for C2 at the concrete landscape stream 1280×720. -/
theorem capture_fixed_dimensions_witness :
    (0 : ℚ) < 1280 ∧ (0 : ℚ) < 720 ∧
    (handleCapture 1280 720).canvasWidth = 460 ∧
    (handleCapture 1280 720).canvasHeight = 620 :=
  ⟨by norm_num, by norm_num,
   (capture_fixed_dimensions 1280 720 (by norm_num) (by norm_num)).1,
   (capture_fixed_dimensions 1280 720 (by norm_num) (by norm_num)).2.1⟩

/-- Claim C3: for positive stream dimensions, if the stream ratio exceeds
the target ratio 460/620 the crop keeps the full source height and is
horizontally centered; otherwise it keeps the full source width and is
vertically centered; in both cases the crop's width/height ratio equals
460/620. -/
theorem computeCrop_centered (w h : ℚ) (hw : 0 < w) (hh : 0 < h) :
    (w / h > 460 / 620 →
      (computeCrop w h).sourceHeight = h ∧ (computeCrop w h).sourceY = 0 ∧
      (computeCrop w h).sourceX + (computeCrop w h).sourceWidth / 2 = w / 2) ∧
    (¬ w / h > 460 / 620 →
      (computeCrop w h).sourceWidth = w ∧ (computeCrop w h).sourceX = 0 ∧
      (computeCrop w h).sourceY + (computeCrop w h).sourceHeight / 2 = h / 2) ∧
    (computeCrop w h).sourceWidth / (computeCrop w h).sourceHeight = 460 / 620 := by
  by_cases hc : w / h > (460 : ℚ) / 620
  · have hcrop : computeCrop w h =
        { sourceX := (w - h * ((460 : ℚ) / 620)) / 2, sourceY := 0,
          sourceWidth := h * ((460 : ℚ) / 620), sourceHeight := h } := by
      simp [computeCrop, hc]
    rw [hcrop]
    dsimp only
    refine ⟨fun _ => ⟨rfl, rfl, by ring⟩, fun hn => absurd hc hn, ?_⟩
    rw [mul_comm]
    exact mul_div_cancel_right₀ _ hh.ne'
  · have hcrop : computeCrop w h =
        { sourceX := 0, sourceY := (h - w / ((460 : ℚ) / 620)) / 2,
          sourceWidth := w, sourceHeight := w / ((460 : ℚ) / 620) } := by
      simp [computeCrop, hc]
    rw [hcrop]
    dsimp only
    refine ⟨fun hgt => absurd hgt hc, fun _ => ⟨rfl, rfl, by ring⟩, ?_⟩
    rw [div_div_eq_mul_div, mul_comm]
    exact mul_div_cancel_right₀ _ hw.ne'

/-- Witness for C3 at the concrete landscape stream 1280×720, whose ratio
exceeds 460/620: the crop ratio is the target ratio. -/
theorem computeCrop_centered_witness :
    (0 : ℚ) < 1280 ∧ (0 : ℚ) < 720 ∧
    (computeCrop 1280 720).sourceWidth / (computeCrop 1280 720).sourceHeight
      = 460 / 620 :=
  ⟨by norm_num, by norm_num,
   (computeCrop_centered 1280 720 (by norm_num) (by norm_num)).2.2⟩

/-- Claim C4: `handleDelete` is a no-op when no card carries the identifier;
otherwise it removes exactly the cards with that identifier, keeps every
other card, preserves their relative order (the result is a sublist of the
original), and leaves the counter untouched. -/
theorem handleDelete_correct (s : AppState) (id : String) :
    ((∀ p ∈ s.photos, p.id ≠ id) → handleDelete s id = s) ∧
    (handleDelete s id).topZIndex = s.topZIndex ∧
    (handleDelete s id).photos.Sublist s.photos ∧
    (∀ p : PhotoData, p ∈ (handleDelete s id).photos ↔ p ∈ s.photos ∧ p.id ≠ id) := by
  refine ⟨?_, rfl, List.filter_sublist _, ?_⟩
  · intro habs
    have hfil : s.photos.filter (fun p => p.id != id) = s.photos := by
      rw [List.filter_eq_self]
      intro a ha
      simpa using habs a ha
    unfold handleDelete
    rw [hfil]
  · intro p
    simp [handleDelete, List.mem_filter]

/-- Witness for C4: deleting an absent identifier from `wallTwo` leaves it
unchanged. -/
theorem handleDelete_correct_witness : handleDelete wallTwo "zzzz" = wallTwo :=
  (handleDelete_correct wallTwo "zzzz").1 (by decide)

/-- Claim C5: a card mounted with `isDeveloping = true` starts undeveloped
and becomes developed when the armed timer fires; a card mounted with
`isDeveloping = false` is developed immediately; and from any developed
state, every further event sequence keeps `developed = true`, so the
transition happens at most once and never reverts. -/
theorem card_development_one_way (s : CardDevState) (es : List CardEvent)
    (h : s.developed = true) :
    (cardRun initialCardDevState [CardEvent.mount true]).developed = false ∧
    (cardRun initialCardDevState
      [CardEvent.mount true, CardEvent.timer]).developed = true ∧
    (cardRun initialCardDevState [CardEvent.mount false]).developed = true ∧
    (cardRun s es).developed = true :=
  ⟨by decide, by decide, by decide, cardRun_developed_mono es s h⟩

/-- Witness for C5: a developed card stays developed through further
events. -/
theorem card_development_one_way_witness :
    (CardDevState.mk true false).developed = true ∧
    (cardRun (CardDevState.mk true false)
      [CardEvent.timer, CardEvent.mount true]).developed = true :=
  ⟨rfl,
   (card_development_one_way (CardDevState.mk true false)
     [CardEvent.timer, CardEvent.mount true] rfl).2.2.2⟩

/-- Claim C6: `handleDownload` names the file `instax-` followed by the
first 8 characters of the identifier followed by `.jpg`, passes the image
URL through unchanged as the link target, and leaves the wall state (photo
collection and counter) unchanged.  The last conjunct certifies that
`id.take 8` is the leading prefix of `id`. -/
theorem handleDownload_correct (s : AppState) (id url : String) :
    (handleDownload s id url).2.filename = "instax-" ++ id.take 8 ++ ".jpg" ∧
    (handleDownload s id url).2.href = url ∧
    (handleDownload s id url).1 = s ∧
    id.take 8 ++ id.drop 8 = id :=
  ⟨rfl, rfl, rfl, string_take_append_drop id 8⟩

/-- Claim C7: each `handleTakePhoto` call appends exactly one new card,
leaves every existing card in place, and the new card is horizontally
centered on the camera rectangle (up to the fixed half-card offset 100),
sits the fixed distance 300 above the rectangle's top, carries a rotation
in ±3 degrees, and is flagged as developing. -/
theorem takePhoto_spawn (s : AppState) (nid : String) (now : ℤ) (r : ℚ)
    (hr0 : 0 ≤ r) (hr1 : r < 1) (du : String) (rect : DOMRect) :
    ∃ p : PhotoData,
      (handleTakePhoto s nid now r du rect).photos = s.photos ++ [p] ∧
      (handleTakePhoto s nid now r du rect).photos.length
        = s.photos.length + 1 ∧
      p.x + 100 = rect.left + rect.width / 2 ∧
      p.y = rect.top - 300 ∧
      (-3 : ℚ) ≤ p.rotation ∧ p.rotation ≤ 3 ∧
      p.isDeveloping = true := by
  refine ⟨{ id := nid, url := du, timestamp := now,
            x := rect.left + rect.width / 2 - 100, y := rect.top - 300,
            rotation := r * 6 - 3, isDeveloping := true },
          rfl, ?_, ?_, rfl, ?_, ?_, rfl⟩
  · simp [handleTakePhoto]
  · show rect.left + rect.width / 2 - 100 + 100 = rect.left + rect.width / 2
    ring
  · show (-3 : ℚ) ≤ r * 6 - 3
    linarith
  · show r * 6 - 3 ≤ (3 : ℚ)
    linarith

/-- Witness for C7 with random draw 1/2 and the camera at
`(left, top, width, height) = (40, 500, 340, 300)`. -/
theorem takePhoto_spawn_witness :
    (0 : ℚ) ≤ 1 / 2 ∧ (1 : ℚ) / 2 < 1 ∧
    ∃ p : PhotoData,
      (handleTakePhoto initialAppState "cafebabe" 0 (1 / 2) "data"
        ⟨40, 500, 340, 300⟩).photos = initialAppState.photos ++ [p] ∧
      (handleTakePhoto initialAppState "cafebabe" 0 (1 / 2) "data"
        ⟨40, 500, 340, 300⟩).photos.length
        = initialAppState.photos.length + 1 ∧
      p.x + 100 = (40 : ℚ) + 340 / 2 ∧
      p.y = (500 : ℚ) - 300 ∧
      (-3 : ℚ) ≤ p.rotation ∧ p.rotation ≤ 3 ∧
      p.isDeveloping = true :=
  ⟨by norm_num, by norm_num,
   takePhoto_spawn initialAppState "cafebabe" 0 (1 / 2) (by norm_num)
     (by norm_num) "data" ⟨40, 500, 340, 300⟩⟩

/-- Claim C8: each `handleBringToFront` call increments the counter by
exactly one, no other wall operation changes it, and the counter values
observed over any sequence of calls are strictly increasing and pairwise
distinct. -/
theorem bringToFront_counter_strict_mono (s : AppState) (ids : List String)
    (hids : ids.Nodup) :
    (∀ id, (handleBringToFront s id).topZIndex = s.topZIndex + 1) ∧
    (∀ id, (handleDelete s id).topZIndex = s.topZIndex) ∧
    (∀ id url, (handleDownload s id url).1.topZIndex = s.topZIndex) ∧
    (∀ nid now r du rect,
      (handleTakePhoto s nid now r du rect).topZIndex = s.topZIndex) ∧
    (bringToFrontTrace s ids).length = ids.length ∧
    List.Pairwise (· < ·) (bringToFrontTrace s ids) ∧
    (bringToFrontTrace s ids).Nodup := by
  refine ⟨fun _ => rfl, fun _ => rfl, fun _ _ => rfl,
    fun _ _ _ _ _ => rfl, ?_, ?_, ?_⟩
  · rw [bringToFrontTrace_eq]
    simp
  · rw [bringToFrontTrace_eq]
    exact List.Pairwise.map _ (fun a b hab => by omega)
      (List.pairwise_lt_range _)
  · rw [bringToFrontTrace_eq]
    exact (List.nodup_range _).map (fun a b hab => by omega)

/-- Witness for C8: three distinct ids from the initial state give the
strictly increasing trace `[11, 12, 13]`. -/
theorem bringToFront_counter_strict_mono_witness :
    (["aaaa", "bbbb", "cccc"] : List String).Nodup ∧
    List.Pairwise (· < ·)
      (bringToFrontTrace initialAppState ["aaaa", "bbbb", "cccc"]) ∧
    bringToFrontTrace initialAppState ["aaaa", "bbbb", "cccc"] = [11, 12, 13] :=
  ⟨by decide,
   (bringToFront_counter_strict_mono initialAppState ["aaaa", "bbbb", "cccc"]
     (by decide)).2.2.2.2.2.1,
   by decide⟩

/-- Claim C9: a failed stream acquisition is caught and recorded as a
persistent `permissionError`; the lens then renders the placeholder instead
of the feed, streaming stays off, and no later setup outcome clears the
error or the placeholder, so the failure is terminal for the session while
the component keeps rendering normally. -/
theorem camera_failure_persistent (e : String) (s : CameraState)
    (rs : List (Except String Unit)) (h : s.permissionError = true) :
    (setupCamera (Except.error e) initialCameraState).permissionError = true ∧
    (setupCamera (Except.error e) initialCameraState).isStreaming = false ∧
    renderLens (setupCamera (Except.error e) initialCameraState)
      = LensRender.placeholder ∧
    (∀ t : CameraState, (setupCamera (Except.error e) t).permissionError = true) ∧
    (cameraRun s rs).permissionError = true ∧
    renderLens (cameraRun s rs) = LensRender.placeholder :=
  ⟨rfl, rfl, rfl, fun _ => rfl, cameraRun_error_mono rs s h,
   renderLens_of_error _ (cameraRun_error_mono rs s h)⟩

/-- Witness for C9: from the errored state, even a later successful setup
leaves the error set and the placeholder rendered. -/
theorem camera_failure_persistent_witness :
    (CameraState.mk false true).permissionError = true ∧
    renderLens (cameraRun (CameraState.mk false true) [Except.ok ()])
      = LensRender.placeholder :=
  ⟨rfl,
   (camera_failure_persistent "NotAllowedError" (CameraState.mk false true)
     [Except.ok ()] rfl).2.2.2.2.2⟩

/-- Claim C10: `handleBringToFront` is independent of its id argument — for
any two identifiers, existing or not, it produces the same resulting state
from the same start state: the photo collection is untouched and the
counter goes up by one. -/
theorem bringToFront_id_independent (s : AppState) (id1 id2 : String) :
    handleBringToFront s id1 = handleBringToFront s id2 ∧
    (handleBringToFront s id1).photos = s.photos ∧
    (handleBringToFront s id1).topZIndex = s.topZIndex + 1 :=
  ⟨rfl, rfl, rfl⟩
